import Mathlib

/-!
Verification of the GhostChat streaming-completion relay and chat routes.

The definitions below are a shallow embedding of:
  * the streaming route in `docs/customization/message-streaming.md`
    (the `ReadableStream` `start` loop at lines 135-171, its refined error
    handling at lines 402-427, and `handleCancelResponse` at lines 539-570);
  * the non-streaming POST route in `src/app/api/chat/route.ts`;
  * the conversation assembly (`allMessages`) in
    `src/components/ChatWindow.tsx`, lines 110-117.
-/

namespace GhostChat

/-- Concatenation of a list of text fragments, in order. -/
def concatAll : List String → String
  | [] => ""
  | s :: rest => s ++ concatAll rest

/-- One upstream stream chunk, reduced to its text delta:
`chunk.choices[0]?.delta?.content` — `none` when the chunk carries no
content field. -/
abbrev Chunk := Option String

/-- `const content = chunk.choices[0]?.delta?.content || '';` —
a missing delta is coerced to the empty string. -/
def deltaContent (c : Chunk) : String := c.getD ""

/-- The text deltas of a chunk sequence, in arrival order. -/
def deltaTexts (chunks : List Chunk) : List String := chunks.map deltaContent

/-- The mutable state of the streaming route's `start` loop:
`fullResponse` is the accumulated text, `enqueued` the list of fragments
forwarded to the client via `controller.enqueue`, in the order sent. -/
structure RelayState where
  fullResponse : String
  enqueued : List String
deriving DecidableEq, Repr

/-- One iteration of `for await (const chunk of openaiStream)`:
`if (content) { fullResponse += content; controller.enqueue(encode(content)); }`.
Chunks with an empty delta are skipped entirely. -/
def relayChunk (st : RelayState) (c : Chunk) : RelayState :=
  if deltaContent c = "" then st
  else { fullResponse := st.fullResponse ++ deltaContent c,
         enqueued := st.enqueued ++ [deltaContent c] }

/-- The whole relay loop run on a chunk sequence, starting from
`let fullResponse = '';` and nothing enqueued. -/
def relayAll (chunks : List Chunk) : RelayState :=
  chunks.foldl relayChunk { fullResponse := "", enqueued := [] }

/-- Terminal states of a streaming session (spec §4.3). -/
inductive Terminal
  | completed
  | errored
  | cancelled
deriving DecidableEq, Repr

/-- Marker appended on the Errored path:
`content: fullResponse + ' [Response interrupted]'`. -/
def interruptedMarker : String := " [Response interrupted]"

/-- Marker appended on the Cancelled path:
`content: streamingMessage.content + ' [Response cancelled]'`. -/
def cancelledMarker : String := " [Response cancelled]"

/-- `handleCancelResponse` (ChatWindow, streaming guide lines 539-570):
inserts the partial text plus the cancellation marker, but only under the
guard `if (streamingMessage && streamingMessage.content)` — nothing is
persisted when the in-progress content is empty.  `content` is the text the
client has accumulated from the relayed bytes. -/
def handleCancelResponse (content : String) : List String :=
  if content = "" then [] else [content ++ cancelledMarker]

/-- Messages persisted for a streaming session that saw `chunks` from
upstream and then reached terminal state `t`:
  * Completed: the route inserts `fullResponse` unconditionally, then closes;
  * Errored: the catch block inserts `fullResponse + ' [Response interrupted]'`
    only under the guard `if (fullResponse)`;
  * Cancelled: `handleCancelResponse` runs on the client-side accumulated
    content, which equals the concatenation of the relayed fragments, i.e.
    `fullResponse` (theorem `concatAll_enqueued` below). -/
def sessionRecords (chunks : List Chunk) : Terminal → List String
  | Terminal.completed => [(relayAll chunks).fullResponse]
  | Terminal.errored =>
      if (relayAll chunks).fullResponse = "" then []
      else [(relayAll chunks).fullResponse ++ interruptedMarker]
  | Terminal.cancelled => handleCancelResponse (relayAll chunks).fullResponse

/-- Failure kinds the completion provider can raise before or during
generation (spec §7); the route's catch blocks receive them as opaque
exceptions. -/
inductive UpstreamFailure
  | rateLimited
  | contextTooLong
  | transport
  | other
deriving DecidableEq, Repr

/-- Fallback text in the non-streaming route:
`content: aiResponse || 'I apologize, but I was unable to generate a response.'`. -/
def fallbackContent : String := "I apologize, but I was unable to generate a response."

/-- JavaScript `aiResponse || fallback`: both `null` and the empty string
are falsy and select the fallback. -/
def orFallback (aiResponse : Option String) : String :=
  match aiResponse with
  | none => fallbackContent
  | some s => if s = "" then fallbackContent else s

/-- The JSON response of the non-streaming route, reduced to the fields the
claims are about. -/
structure RouteResponse where
  status : Nat
  errorMsg : Option String
  success : Bool
deriving DecidableEq, Repr

/-- The non-streaming `POST` of `src/app/api/chat/route.ts` after the auth
checks: `upstream` is the result of `await generateChatCompletion(messages)`
(`Except.error` = the call threw, caught by the outer catch, which returns
500 "Internal server error" without inspecting the failure kind;
`Except.ok` = the completion, possibly `null`), `insertFails` is whether the
Supabase insert returns an `insertError`.  Returns the HTTP response
together with the list of assistant messages persisted. -/
def chatRoutePost (upstream : Except UpstreamFailure (Option String))
    (insertFails : Bool) : RouteResponse × List String :=
  match upstream with
  | Except.error _ =>
      ({ status := 500, errorMsg := some "Internal server error", success := false }, [])
  | Except.ok aiResponse =>
      if insertFails then
        ({ status := 500, errorMsg := some "Failed to save AI response", success := false }, [])
      else
        ({ status := 200, errorMsg := none, success := true }, [orFallback aiResponse])

/-- The streaming route when `generateStreamingChatCompletion` throws before
any stream exists (rate limit, context too long, ...): the outer catch
returns the same 500 "Internal server error" JSON for every failure kind,
and no insert was reached. -/
def streamRoutePreStreamFailure (e : UpstreamFailure) : RouteResponse × List String :=
  match e with
  | _ => ({ status := 500, errorMsg := some "Internal server error", success := false }, [])

/-- What the streaming route signals at a clean end of stream: the insert's
result is never inspected (the Supabase call resolves with an `error` field
that the code ignores), and `controller.close()` runs either way. -/
structure StreamTerminalReport where
  closedCleanly : Bool
  persistFailureSurfaced : Bool
deriving DecidableEq, Repr

/-- Clean-end path of the streaming route, lines 152-165 of the guide:
`await supabaseClient.from('messages').insert([...]); controller.close();`.
When the insert fails nothing is stored, yet the stream still closes as a
success and no error reaches the caller. -/
def streamCompletedOutcome (chunks : List Chunk) (insertFails : Bool) :
    StreamTerminalReport × List String :=
  ({ closedCleanly := true, persistFailureSurfaced := false },
   if insertFails then [] else [(relayAll chunks).fullResponse])

/-- Message roles. -/
inductive Role
  | system
  | user
  | assistant
deriving DecidableEq, Repr

/-- A role-tagged conversation turn. -/
structure ConversationTurn where
  role : Role
  content : String
deriving DecidableEq, Repr

/-- `...(chat?.system_prompt ? [{ role: 'system', content: chat.system_prompt }] : [])`
— the optional system turn; a missing or empty (falsy) prompt contributes
nothing. -/
def systemTurns (system_prompt : Option String) : List ConversationTurn :=
  match system_prompt with
  | none => []
  | some p => if p = "" then [] else [{ role := Role.system, content := p }]

/-- `allMessages` from `handleSendMessage` (ChatWindow.tsx lines 110-117):
the optional system turn, then the fetched history spread in order, then the
new user message last.  Built by array spread — the inputs are not
mutated. -/
def allMessages (system_prompt : Option String) (messages : List ConversationTurn)
    (userMessage : ConversationTurn) : List ConversationTurn :=
  systemTurns system_prompt ++ messages ++ [userMessage]

/-! ### Helper lemmas about the relay loop -/

theorem concatAll_append (l₁ l₂ : List String) :
    concatAll (l₁ ++ l₂) = concatAll l₁ ++ concatAll l₂ := by
  induction l₁ with
  | nil => simp [concatAll]
  | cons s rest ih => simp [concatAll, ih, String.append_assoc]

theorem concatAll_filter_ne_empty (l : List String) :
    concatAll (l.filter fun s => s ≠ "") = concatAll l := by
  induction l with
  | nil => rfl
  | cons s rest ih =>
    simp only [ne_eq, decide_not] at ih ⊢
    by_cases h : s = ""
    · subst h
      simpa [concatAll, List.filter_cons] using ih
    · simp [concatAll, List.filter_cons, h, ih]

theorem relay_foldl (chunks : List Chunk) (st : RelayState) :
    (chunks.foldl relayChunk st).fullResponse
        = st.fullResponse ++ concatAll (deltaTexts chunks)
    ∧ (chunks.foldl relayChunk st).enqueued
        = st.enqueued ++ (deltaTexts chunks).filter (fun s => s ≠ "") := by
  induction chunks generalizing st with
  | nil => simp [deltaTexts, concatAll]
  | cons c rest ih =>
    by_cases h : deltaContent c = ""
    · have hfold : relayChunk st c = st := by simp [relayChunk, h]
      have := ih st
      constructor
      · simpa [deltaTexts, concatAll, h, hfold] using this.1
      · simpa [deltaTexts, List.filter, h, hfold] using this.2
    · have hfold : relayChunk st c
          = { fullResponse := st.fullResponse ++ deltaContent c,
              enqueued := st.enqueued ++ [deltaContent c] } := by
        simp [relayChunk, h]
      have := ih (relayChunk st c)
      constructor
      · simpa [deltaTexts, concatAll, h, hfold, String.append_assoc] using this.1
      · simpa [deltaTexts, List.filter, h, hfold] using this.2

theorem relayAll_fullResponse (chunks : List Chunk) :
    (relayAll chunks).fullResponse = concatAll (deltaTexts chunks) := by
  have := relay_foldl chunks { fullResponse := "", enqueued := [] }
  simpa [relayAll] using this.1

theorem relayAll_enqueued (chunks : List Chunk) :
    (relayAll chunks).enqueued = (deltaTexts chunks).filter (fun s => s ≠ "") := by
  have := relay_foldl chunks { fullResponse := "", enqueued := [] }
  simpa [relayAll] using this.2

/-- The client-side accumulated text (the concatenation of the fragments
enqueued to it, in order) coincides with the server-side `fullResponse`. -/
theorem concatAll_enqueued (chunks : List Chunk) :
    concatAll (relayAll chunks).enqueued = (relayAll chunks).fullResponse := by
  rw [relayAll_enqueued, relayAll_fullResponse, concatAll_filter_ne_empty]

/-! ### Claim theorems -/

/-- C1 (counterexample): a session that reaches Errored with zero fragments
received produces zero persisted records — the `if (fullResponse)` guard in
the catch block skips the insert — refuting "never zero records ... including
sessions that received zero fragments". -/
theorem errored_zero_fragments_no_record :
    (sessionRecords [] Terminal.errored).length = 0 := rfl

/-- C1 (amended): every streaming session persists at most one record; the
count is exactly one for Completed sessions and, for Errored or Cancelled
sessions, exactly one when the accumulated text is nonempty and zero when it
is empty. -/
theorem sessionRecords_length (chunks : List Chunk) (t : Terminal) :
    (sessionRecords chunks t).length
      = if t = Terminal.completed ∨ (relayAll chunks).fullResponse ≠ "" then 1 else 0 := by
  by_cases h : (relayAll chunks).fullResponse = "" <;>
    cases t <;> simp [sessionRecords, handleCancelResponse, h]

/-- C2: a Completed session persists exactly the concatenation of the
fragments relayed to the client, in relay order; the relayed fragments are
exactly the nonempty upstream deltas in arrival order, and their
concatenation equals the concatenation of all deltas. -/
theorem completed_persists_concatenation (chunks : List Chunk) :
    sessionRecords chunks Terminal.completed = [concatAll (relayAll chunks).enqueued]
    ∧ (relayAll chunks).enqueued = (deltaTexts chunks).filter (fun s => s ≠ "")
    ∧ concatAll (relayAll chunks).enqueued = concatAll (deltaTexts chunks) := by
  refine ⟨?_, relayAll_enqueued chunks, ?_⟩
  · simp [sessionRecords, concatAll_enqueued]
  · rw [relayAll_enqueued, concatAll_filter_ne_empty]

/-- C3 (counterexample): an Errored session with zero fragments persists
nothing at all, not one marker-bearing record, refuting the claim's "k ≥ 0
... exactly one persisted record". -/
theorem errored_zero_fragments_skips_persistence :
    sessionRecords [] Terminal.errored = [] := rfl

/-- C3 (amended): a session reaching Errored after at least one relayed
fragment (nonempty accumulated text) persists exactly one record whose
content is the concatenation of the relayed fragments followed by
`" [Response interrupted]"`. -/
theorem errored_persists_partial_with_marker (chunks : List Chunk)
    (h : (relayAll chunks).fullResponse ≠ "") :
    sessionRecords chunks Terminal.errored
      = [concatAll (relayAll chunks).enqueued ++ interruptedMarker]
    ∧ (sessionRecords chunks Terminal.errored).length = 1
    ∧ (relayAll chunks).enqueued ≠ [] := by
  refine ⟨?_, ?_, ?_⟩
  · simp [sessionRecords, h, concatAll_enqueued]
  · simp [sessionRecords, h]
  · intro hnil
    exact h (by rw [← concatAll_enqueued, hnil]; rfl)

/-- C3 (witness): Scenario B — upstream emits `["Par"]` then faults; the
persisted record is exactly `"Par [Response interrupted]"`. -/
theorem errored_persists_partial_with_marker_witness :
    (relayAll [some "Par"]).fullResponse ≠ ""
    ∧ sessionRecords [some "Par"] Terminal.errored = ["Par [Response interrupted]"] := by
  refine ⟨by decide, ?_⟩
  have h := errored_persists_partial_with_marker [some "Par"] (by decide)
  rw [h.1]
  decide

/-- C4 (counterexample): cancelling with zero fragments received persists
nothing — `handleCancelResponse` only inserts under the guard
`if (streamingMessage && streamingMessage.content)` — refuting "exactly one
persisted record exists" for every k. -/
theorem cancelled_zero_fragments_skips_persistence :
    sessionRecords [] Terminal.cancelled = [] := rfl

/-- C4 (amended): a session cancelled after at least one relayed fragment
(nonempty accumulated text) persists exactly one record whose content is the
concatenation of the relayed fragments followed by `" [Response cancelled]"`
appended once. -/
theorem cancelled_persists_partial_with_marker (chunks : List Chunk)
    (h : (relayAll chunks).fullResponse ≠ "") :
    sessionRecords chunks Terminal.cancelled
      = [concatAll (relayAll chunks).enqueued ++ cancelledMarker]
    ∧ (sessionRecords chunks Terminal.cancelled).length = 1 := by
  constructor
  · simp [sessionRecords, handleCancelResponse, h, concatAll_enqueued]
  · simp [sessionRecords, handleCancelResponse, h]

/-- C4 (witness): Scenario C — cancel after upstream emitted
`["The answer"]`; the persisted record is exactly
`"The answer [Response cancelled]"`. -/
theorem cancelled_persists_partial_with_marker_witness :
    (relayAll [some "The answer"]).fullResponse ≠ ""
    ∧ sessionRecords [some "The answer"] Terminal.cancelled
        = ["The answer [Response cancelled]"] := by
  refine ⟨by decide, ?_⟩
  have h := cancelled_persists_partial_with_marker [some "The answer"] (by decide)
  rw [h.1]
  decide

/-- C5: the bytes sent to the client are the raw concatenation of the
upstream deltas in arrival order (first two conjuncts); and after any
initial segment `pre` of the chunk sequence, everything relayed during `pre`
has already been enqueued, unchanged and in order, before the remaining
chunks are consumed (third conjunct). -/
theorem relay_forwards_fragments_in_order (pre post : List Chunk) :
    concatAll (relayAll (pre ++ post)).enqueued = (relayAll (pre ++ post)).fullResponse
    ∧ (relayAll (pre ++ post)).fullResponse = concatAll (deltaTexts (pre ++ post))
    ∧ ∃ rest, (relayAll (pre ++ post)).enqueued = (relayAll pre).enqueued ++ rest := by
  refine ⟨concatAll_enqueued _, relayAll_fullResponse _, ?_⟩
  refine ⟨(deltaTexts post).filter (fun s => s ≠ ""), ?_⟩
  rw [relayAll_enqueued, relayAll_enqueued]
  simp [deltaTexts]

/-- C6: `allMessages` is exactly the optional system turn, then the history
unchanged and in order, then the new user turn last; it is a pure function
of its three inputs. -/
theorem allMessages_spec (system_prompt : Option String)
    (history : List ConversationTurn) (userMessage : ConversationTurn) :
    allMessages system_prompt history userMessage
      = systemTurns system_prompt ++ (history ++ [userMessage])
    ∧ (allMessages system_prompt history userMessage).take
        (systemTurns system_prompt).length = systemTurns system_prompt
    ∧ (allMessages system_prompt history userMessage).drop
        (systemTurns system_prompt).length = history ++ [userMessage]
    ∧ (allMessages system_prompt history userMessage).getLast? = some userMessage := by
  refine ⟨by simp [allMessages], ?_, ?_, ?_⟩
  · rw [allMessages, List.append_assoc, List.take_left]
  · rw [allMessages, List.append_assoc, List.drop_left]
  · rw [allMessages, List.getLast?_concat]

/-- C7 (counterexample): a pre-stream rate-limit failure and a pre-stream
context-too-long rejection produce the very same 500 "Internal server error"
response — the caller cannot tell a retryable failure from a non-retryable
one, refuting "distinct in kind". -/
theorem preStream_errors_indistinguishable :
    chatRoutePost (Except.error UpstreamFailure.rateLimited) false
      = chatRoutePost (Except.error UpstreamFailure.contextTooLong) false
    ∧ (chatRoutePost (Except.error UpstreamFailure.rateLimited) false).1.errorMsg
      = some "Internal server error" :=
  ⟨rfl, rfl⟩

/-- C7 (amended): every upstream failure before the first fragment persists
zero records and returns an error to the caller, but the error is the same
generic 500 "Internal server error" for every failure kind, in both the
non-streaming and the streaming route. -/
theorem preStream_failure_no_record (e : UpstreamFailure) (insertFails : Bool) :
    (chatRoutePost (Except.error e) insertFails).2 = []
    ∧ (chatRoutePost (Except.error e) insertFails).1
        = { status := 500, errorMsg := some "Internal server error", success := false }
    ∧ (streamRoutePreStreamFailure e).2 = []
    ∧ (streamRoutePreStreamFailure e).1
        = { status := 500, errorMsg := some "Internal server error", success := false } := by
  cases e <;> exact ⟨rfl, rfl, rfl, rfl⟩

/-- C8 (counterexample): in the streaming route a failed final insert stores
nothing, yet the stream still closes cleanly and the failure is not surfaced
— the session reports success while the accumulated text was not saved,
refuting the claim for streaming sessions. -/
theorem stream_insert_failure_reports_success :
    streamCompletedOutcome [some "Hello"] true
      = ({ closedCleanly := true, persistFailureSurfaced := false }, []) := rfl

/-- C8 (amended): in the non-streaming route a failed final write is
surfaced as a 500 "Failed to save AI response" — distinct from the upstream
"Internal server error" — and success is not reported; in the streaming
route the insert's result is ignored and the stream closes as if successful,
so the failure is not surfaced there. -/
theorem insert_failure_handling (aiResponse : Option String) (chunks : List Chunk) :
    (chatRoutePost (Except.ok aiResponse) true).1
      = { status := 500, errorMsg := some "Failed to save AI response", success := false }
    ∧ (chatRoutePost (Except.ok aiResponse) true).2 = []
    ∧ (chatRoutePost (Except.ok aiResponse) true).1.errorMsg
        ≠ (chatRoutePost (Except.error UpstreamFailure.other) true).1.errorMsg
    ∧ (streamCompletedOutcome chunks true).1.closedCleanly = true
    ∧ (streamCompletedOutcome chunks true).1.persistFailureSurfaced = false
    ∧ (streamCompletedOutcome chunks true).2 = [] := by
  refine ⟨rfl, rfl, ?_, rfl, rfl, rfl⟩
  show some "Failed to save AI response" ≠ some "Internal server error"
  decide

/-- C9: in the non-streaming route a null or empty completion is persisted
as the fixed fallback text and the route reports success; more generally the
persisted content is `aiResponse || fallback`, which is never the empty
string. -/
theorem empty_completion_fallback (aiResponse : Option String)
    (h : aiResponse.getD "" = "") :
    (chatRoutePost (Except.ok aiResponse) false).2 = [fallbackContent]
    ∧ (chatRoutePost (Except.ok aiResponse) false).1.success = true
    ∧ ∀ b : Option String,
        (chatRoutePost (Except.ok b) false).2 = [orFallback b] ∧ orFallback b ≠ "" := by
  refine ⟨?_, rfl, ?_⟩
  · cases aiResponse with
    | none => rfl
    | some s =>
        simp only [Option.getD] at h
        simp [chatRoutePost, orFallback, h]
  · intro b
    refine ⟨rfl, ?_⟩
    cases b with
    | none => decide
    | some s =>
        by_cases hs : s = ""
        · simp [orFallback, hs]
          decide
        · simp [orFallback, hs]

/-- C9 (witness): a `null` completion persists exactly the fallback text and
the route reports success. -/
theorem empty_completion_fallback_witness :
    ((none : Option String).getD "" = "")
    ∧ (chatRoutePost (Except.ok (none : Option String)) false).2 = [fallbackContent]
    ∧ (chatRoutePost (Except.ok (none : Option String)) false).1.success = true :=
  ⟨rfl, (empty_completion_fallback none rfl).1, (empty_completion_fallback none rfl).2.1⟩

/-- C10: a streaming session whose accumulated text is empty (zero fragments
ever relayed) still persists exactly one empty assistant message on a clean
end of stream, while the Errored path persists nothing. -/
theorem zero_fragment_terminal_policy (chunks : List Chunk)
    (h : (relayAll chunks).fullResponse = "") :
    sessionRecords chunks Terminal.completed = [""]
    ∧ (sessionRecords chunks Terminal.completed).length = 1
    ∧ sessionRecords chunks Terminal.errored = [] := by
  refine ⟨?_, rfl, ?_⟩
  · simp [sessionRecords, h]
  · simp [sessionRecords, h]

/-- C10 (witness): the empty chunk sequence — clean end persists one empty
record, fault persists none. -/
theorem zero_fragment_terminal_policy_witness :
    (relayAll []).fullResponse = ""
    ∧ sessionRecords [] Terminal.completed = [""]
    ∧ sessionRecords [] Terminal.errored = [] :=
  ⟨rfl, (zero_fragment_terminal_policy [] rfl).1, (zero_fragment_terminal_policy [] rfl).2.2⟩

end GhostChat
